import Mathlib

/-!
Verification of the FinSmart-AI essay scoring engine
(`src/functions/main.py`) against its specification.

The embedding below translates the scoring code into Lean:

* Python floats become exact rationals (the decimal literals of the source
  are exact in `ℚ`); the built-in `round` becomes `pythonRound`,
  round-half-to-even.
* The module-level globals `_model_loaded` and `model` become an explicit
  `ModelState` threaded through every function.
* The external collaborators (Firebase storage, the sentence-transformer
  model) are abstracted by an `Env`: booleans saying whether acquiring the
  primary and the fallback model succeeds, and a similarity oracle that may
  fail (`none` models an exception raised inside encode or cos_sim).
* Raised exceptions become `Except` or `Option` values; the `acquired` and
  `invoked` flags record whether storage acquisition and model inference
  actually ran, mirroring the side effects of the source.
-/

namespace FinSmart

/-- Python built-in `round` restricted to exact rational inputs:
round-half-to-even, as used in `calculate_final_score` and in
`round(similarity_score, 4)`. -/
def pythonRound (q : ℚ) : ℤ :=
  if q - ⌊q⌋ < 1/2 then ⌊q⌋
  else if 1/2 < q - ⌊q⌋ then ⌊q⌋ + 1
  else if ⌊q⌋ % 2 = 0 then ⌊q⌋ else ⌊q⌋ + 1

/-- `round(x, 4)` from the source: round to four decimal places. -/
def round4 (q : ℚ) : ℚ := (pythonRound (q * 10000) : ℚ) / 10000

/-- Branch of the calibration curve for `similarity >= 0.85`
(main.py line 197). -/
def pct_perfect (s : ℚ) : ℚ := 0.90 + (s - 0.85) * 0.67

/-- Branch for `0.70 <= similarity < 0.85` (main.py line 200). -/
def pct_good (s : ℚ) : ℚ := 0.70 + (s - 0.70) * 1.33

/-- Branch for `0.55 <= similarity < 0.70` (main.py line 203). -/
def pct_mid (s : ℚ) : ℚ := 0.50 + (s - 0.55) * 1.33

/-- Branch for `0.40 <= similarity < 0.55` (main.py line 206). -/
def pct_weak (s : ℚ) : ℚ := 0.30 + (s - 0.40) * 1.33

/-- Branch for `similarity < 0.40` (main.py line 209). -/
def pct_poor (s : ℚ) : ℚ := s * 0.75

/-- The piecewise percentage computed by `calculate_final_score`
(main.py lines 195-209). -/
def percentage (s : ℚ) : ℚ :=
  if 0.85 ≤ s then pct_perfect s
  else if 0.70 ≤ s then pct_good s
  else if 0.55 ≤ s then pct_mid s
  else if 0.40 ≤ s then pct_weak s
  else pct_poor s

/-- `calculate_final_score` (main.py lines 173-211):
`return round(min(percentage, 1.0) * max_score)`. -/
def calculate_final_score (similarity : ℚ) (max_score : ℤ) : ℤ :=
  pythonRound (min (percentage similarity) 1 * max_score)

/-- The two model variants the manager can hold: the fine-tuned model
downloaded from Firebase Storage, or the pre-trained HuggingFace model. -/
inductive ModelKind
  | primary
  | fallback
deriving DecidableEq

/-- The module-level globals `_model_loaded` (main.py line 36) and
`model` (line 37). -/
structure ModelState where
  model_loaded : Bool
  model : Option ModelKind
deriving DecidableEq

/-- The external world: whether downloading + constructing the primary
model succeeds, whether constructing the fallback model succeeds, and the
similarity oracle of the loaded sentence-transformer (`none` models an
exception raised while encoding or computing cosine similarity). -/
structure Env where
  primary_ok : Bool
  fallback_ok : Bool
  sim : ModelKind → String → String → Option ℚ

/-- Outcome of `load_model_from_firebase_storage`: the returned model or a
raised exception, the new globals, and whether a storage acquisition
(listing, download, construction) was attempted. -/
structure LoadResult where
  result : Except Unit ModelKind
  state : ModelState
  acquired : Bool

/-- `load_model_from_firebase_storage` (main.py lines 40-123).
Cache hit (`_model_loaded and model is not None`) returns immediately;
otherwise the primary download is attempted, on any failure the fallback
pre-trained model is constructed, and a fallback failure re-raises.
The globals are only written on a successful construction. -/
def load_model_from_firebase_storage (env : Env) (st : ModelState) : LoadResult :=
  match st.model_loaded, st.model with
  | true, some m => { result := .ok m, state := st, acquired := false }
  | _, _ =>
    if env.primary_ok then
      { result := .ok .primary
        state := { model_loaded := true, model := some .primary }
        acquired := true }
    else if env.fallback_ok then
      { result := .ok .fallback
        state := { model_loaded := true, model := some .fallback }
        acquired := true }
    else
      { result := .error ()
        state := st
        acquired := true }

/-- Outcome of `calculate_similarity`: the similarity value, the new
globals, and whether model acquisition and model inference ran. -/
structure SimResult where
  similarity : ℚ
  state : ModelState
  acquired : Bool
  invoked : Bool

/-- `calculate_similarity` (main.py lines 131-170). The whole body is in a
`try` block: empty input returns `0.0` before touching the model, the model
is loaded only when the global `model` is `None`, and any exception
(loading, encoding, cosine) is caught and degraded to `0.0`. -/
def calculate_similarity (env : Env) (st : ModelState)
    (key_answer student_answer : String) : SimResult :=
  if key_answer = "" ∨ student_answer = "" then
    { similarity := 0, state := st, acquired := false, invoked := false }
  else
    match st.model with
    | some m =>
      match env.sim m key_answer student_answer with
      | some v => { similarity := v, state := st, acquired := false, invoked := true }
      | none => { similarity := 0, state := st, acquired := false, invoked := true }
    | none =>
      let r := load_model_from_firebase_storage env st
      match r.result with
      | .error _ =>
        { similarity := 0, state := r.state, acquired := r.acquired, invoked := false }
      | .ok m =>
        match env.sim m key_answer student_answer with
        | some v =>
          { similarity := v, state := r.state, acquired := r.acquired, invoked := true }
        | none =>
          { similarity := 0, state := r.state, acquired := r.acquired, invoked := true }

/-- Python `str.strip()`: drop leading and trailing whitespace. -/
def pyStrip (s : String) : String :=
  ⟨((s.data.dropWhile Char.isWhitespace).reverse.dropWhile Char.isWhitespace).reverse⟩

/-- One element of the request `answers` array; each field is read with
`answer.get(key, default)`, so every field may be absent. -/
structure Answer where
  question_id : Option String
  key_answer : Option String
  student_answer : Option String
  max_score : Option ℤ
deriving DecidableEq

/-- One element of the response `results` array (main.py lines 311-316). -/
structure ResultItem where
  question_id : String
  similarity_score : ℚ
  final_score : ℤ
  max_score : ℤ
deriving DecidableEq

/-- Outcome of scoring one answer in the `score_exam` loop. -/
structure ItemResult where
  item : ResultItem
  state : ModelState
  acquired : Bool
  invoked : Bool

/-- One iteration of the `score_exam` loop (main.py lines 298-316):
read the fields with defaults, strip the two answers, short-circuit when
the stripped student answer is empty, otherwise score via
`calculate_similarity` and `calculate_final_score`. -/
def score_item (env : Env) (st : ModelState) (answer : Answer) : ItemResult :=
  let question_id := answer.question_id.getD ""
  let key_answer := pyStrip (answer.key_answer.getD "")
  let student_answer := pyStrip (answer.student_answer.getD "")
  let max_score := answer.max_score.getD 100
  if student_answer = "" then
    { item := { question_id := question_id, similarity_score := round4 0
                final_score := 0, max_score := max_score }
      state := st, acquired := false, invoked := false }
  else
    let r := calculate_similarity env st key_answer student_answer
    { item := { question_id := question_id, similarity_score := round4 r.similarity
                final_score := calculate_final_score r.similarity max_score
                max_score := max_score }
      state := r.state, acquired := r.acquired, invoked := r.invoked }

/-- Accumulated output of the `score_exam` loop (main.py lines 294-319). -/
structure BatchOut where
  results : List ResultItem
  total_score : ℤ
  total_max_score : ℤ
  state : ModelState

/-- The `for answer in answers` loop of `score_exam`: results are appended
in iteration order and the two totals are running sums. -/
def score_exam_loop (env : Env) (st : ModelState) : List Answer → BatchOut
  | [] => { results := [], total_score := 0, total_max_score := 0, state := st }
  | answer :: rest =>
    let r := score_item env st answer
    let b := score_exam_loop env r.state rest
    { results := r.item :: b.results
      total_score := r.item.final_score + b.total_score
      total_max_score := r.item.max_score + b.total_max_score
      state := b.state }

/-- Body of an HTTP response produced by `score_exam`; the JSON `status`
field is `"error"` for `err` and `"success"` for `batch`. -/
inductive RespBody
  | empty
  | err (msg : String)
  | batch (results : List ResultItem) (total_score total_max_score : ℤ)
deriving DecidableEq

/-- An HTTP response: status code plus JSON body. -/
structure Response where
  status : ℤ
  body : RespBody
deriving DecidableEq

/-- An incoming request: the HTTP method, and the parsed `answers` array
(`none` models a missing or unparsable `answers` key, which the handler
rejects with a 400). -/
structure Request where
  method : String
  answers : Option (List Answer)

/-- The `score_exam` HTTP handler (main.py lines 231-338): OPTIONS
preflight, method check, `answers` validation, then the scoring loop and
the success response. -/
def score_exam (env : Env) (st : ModelState) (req : Request) : Response × ModelState :=
  if req.method = "OPTIONS" then ({ status := 204, body := .empty }, st)
  else if req.method ≠ "POST" then
    ({ status := 405, body := .err "Method not allowed" }, st)
  else
    match req.answers with
    | none => ({ status := 400, body := .err "answers array is required" }, st)
    | some answers =>
      let b := score_exam_loop env st answers
      ({ status := 200, body := .batch b.results b.total_score b.total_max_score }, b.state)

/-- An environment in which both model acquisitions succeed. -/
def env_ok : Env :=
  { primary_ok := true, fallback_ok := true, sim := fun _ _ _ => some 0.9 }

/-- An environment in which the primary download, the fallback
construction and the similarity computation all fail. -/
def env_bad : Env :=
  { primary_ok := false, fallback_ok := false, sim := fun _ _ _ => none }

/-- The cold-start globals: `_model_loaded = False`, `model = None`. -/
def st_cold : ModelState := { model_loaded := false, model := none }

/-- An answer whose key answer strips to the empty string while the
student answer is non-empty. -/
def a_c5 : Answer :=
  { question_id := some "q", key_answer := some " ", student_answer := some "ans",
    max_score := some 10 }

/-- An answer with non-empty key and student answers, used to exhibit the
behaviour of a batch when both model acquisitions fail. -/
def a_bad : Answer :=
  { question_id := some "q1", key_answer := some "k", student_answer := some "s",
    max_score := some 10 }

/-! ### Helper lemmas about round-half-to-even -/

lemma floor_le_pythonRound (q : ℚ) : ⌊q⌋ ≤ pythonRound q := by
  unfold pythonRound
  split_ifs <;> omega

lemma pythonRound_le_floor_add_one (q : ℚ) : pythonRound q ≤ ⌊q⌋ + 1 := by
  unfold pythonRound
  split_ifs <;> omega

lemma pythonRound_le_add_half (q : ℚ) : (pythonRound q : ℚ) ≤ q + 1/2 := by
  have h1 := Int.floor_le q
  have h2 := Int.lt_floor_add_one q
  unfold pythonRound
  split_ifs <;> push_cast <;> linarith

lemma sub_half_le_pythonRound (q : ℚ) : q - 1/2 ≤ (pythonRound q : ℚ) := by
  have h1 := Int.floor_le q
  have h2 := Int.lt_floor_add_one q
  unfold pythonRound
  split_ifs <;> push_cast <;> linarith

lemma pythonRound_intCast (k : ℤ) : pythonRound (k : ℚ) = k := by
  unfold pythonRound
  rw [Int.floor_intCast]
  norm_num

lemma pythonRound_zero : pythonRound 0 = 0 := by
  simpa using pythonRound_intCast 0

lemma pythonRound_mono {a b : ℚ} (h : a ≤ b) : pythonRound a ≤ pythonRound b := by
  rcases lt_or_eq_of_le (Int.floor_mono h) with hf | hf
  · calc pythonRound a ≤ ⌊a⌋ + 1 := pythonRound_le_floor_add_one a
      _ ≤ ⌊b⌋ := by omega
      _ ≤ pythonRound b := floor_le_pythonRound b
  · unfold pythonRound
    rw [hf]
    have hfr : a - (⌊b⌋ : ℚ) ≤ b - (⌊b⌋ : ℚ) := by linarith
    split_ifs <;> first | omega | linarith

lemma pythonRound_le_succ_of_lt_one {a b : ℚ} (h : b - a < 1) :
    pythonRound b ≤ pythonRound a + 1 := by
  have h1 := pythonRound_le_add_half b
  have h2 := sub_half_le_pythonRound a
  have h3 : (pythonRound b : ℚ) < (pythonRound a : ℚ) + 2 := by linarith
  have h4 : pythonRound b < pythonRound a + 2 := by exact_mod_cast h3
  omega

lemma pythonRound_half_even (k : ℤ) :
    pythonRound ((k : ℚ) + 1/2) = if k % 2 = 0 then k else k + 1 := by
  have hf : ⌊(k : ℚ) + 1/2⌋ = k := by
    rw [add_comm, Int.floor_add_int]
    norm_num
  have hsub : ((k : ℚ) + 1/2) - (⌊(k : ℚ) + 1/2⌋ : ℚ) = 1/2 := by
    rw [hf]; ring
  unfold pythonRound
  rw [hsub, hf]
  norm_num

/-! ### Helper lemmas about the calibration curve -/

lemma percentage_mono {a b : ℚ} (h : a ≤ b) : percentage a ≤ percentage b := by
  unfold percentage pct_perfect pct_good pct_mid pct_weak pct_poor
  split_ifs <;> linarith

lemma percentage_nonneg {s : ℚ} (h : 0 ≤ s) : 0 ≤ percentage s := by
  unfold percentage pct_perfect pct_good pct_mid pct_weak pct_poor
  split_ifs <;> linarith

lemma calculate_final_score_zero_sim (m : ℤ) : calculate_final_score 0 m = 0 := by
  unfold calculate_final_score
  have h1 : percentage 0 = 0 := by norm_num [percentage, pct_poor]
  rw [h1]
  norm_num [pythonRound_zero]

lemma round4_zero : round4 0 = 0 := by
  unfold round4
  norm_num [pythonRound_zero]

lemma boundary_score_close {p q : ℚ} (m : ℤ) (hpq : p ≤ q) (hq1 : q ≤ 1)
    (hd : (q - p) * m < 1) (hm : (0:ℚ) ≤ (m:ℚ)) :
    pythonRound (min p 1 * m) ≤ pythonRound (min q 1 * m) ∧
    pythonRound (min q 1 * m) ≤ pythonRound (min p 1 * m) + 1 := by
  rw [min_eq_left (le_trans hpq hq1), min_eq_left hq1]
  constructor
  · exact pythonRound_mono (mul_le_mul_of_nonneg_right hpq hm)
  · apply pythonRound_le_succ_of_lt_one
    calc q * m - p * m = (q - p) * m := by ring
      _ < 1 := hd

/-! ### Helper lemmas about the scoring functions -/

lemma calculate_similarity_empty (env : Env) (st : ModelState) {k s : String}
    (h : k = "" ∨ s = "") :
    calculate_similarity env st k s =
      { similarity := 0, state := st, acquired := false, invoked := false } := by
  unfold calculate_similarity
  rw [if_pos h]

lemma load_model_fail {env : Env} {st : ModelState} (hp : env.primary_ok = false)
    (hf : env.fallback_ok = false) (hm : st.model = none) :
    load_model_from_firebase_storage env st =
      { result := .error (), state := st, acquired := true } := by
  unfold load_model_from_firebase_storage
  rw [hm]
  cases hml : st.model_loaded <;> simp [hp, hf]

lemma score_item_question_id (env : Env) (st : ModelState) (a : Answer) :
    (score_item env st a).item.question_id = a.question_id.getD "" := by
  simp only [score_item]
  split <;> rfl

lemma score_item_max_score (env : Env) (st : ModelState) (a : Answer) :
    (score_item env st a).item.max_score = a.max_score.getD 100 := by
  simp only [score_item]
  split <;> rfl

lemma score_exam_loop_length (env : Env) (st : ModelState) (answers : List Answer) :
    (score_exam_loop env st answers).results.length = answers.length := by
  induction answers generalizing st with
  | nil => rfl
  | cons a rest ih => simp [score_exam_loop, ih]

/-! ### Claim C1: range of calculate_final_score -/

/-- Claim C1 is refuted at similarity = -1, max_score = 100: the source
clamps the percentage only from above with `min(percentage, 1.0)`, so a
negative similarity produces the negative score -75, outside
[0, max_score]. -/
theorem C1_counterexample :
    calculate_final_score (-1) 100 = -75 ∧ calculate_final_score (-1) 100 < 0 := by
  norm_num [calculate_final_score, percentage, pct_poor, pythonRound]

/-- Claim C1 (amended): for every non-negative similarity and every
max_score > 0, calculate_final_score returns an integer in
[0, max_score]; only for negative similarity can the result go below 0,
because the percentage is clamped above (at 1.0) but not below. -/
theorem C1_amended (s : ℚ) (m : ℤ) (hs : 0 ≤ s) (hm : 0 < m) :
    0 ≤ calculate_final_score s m ∧ calculate_final_score s m ≤ m := by
  have hm0 : (0:ℚ) ≤ (m:ℚ) := by exact_mod_cast hm.le
  have hp : (0:ℚ) ≤ min (percentage s) 1 := le_min (percentage_nonneg hs) (by norm_num)
  have hp1 : min (percentage s) 1 ≤ 1 := min_le_right _ _
  have h0 : (0:ℚ) ≤ min (percentage s) 1 * m := mul_nonneg hp hm0
  have h1 : min (percentage s) 1 * (m:ℚ) ≤ (m:ℚ) := by
    calc min (percentage s) 1 * (m:ℚ) ≤ 1 * m := mul_le_mul_of_nonneg_right hp1 hm0
      _ = (m:ℚ) := one_mul _
  constructor
  · have h2 := pythonRound_mono h0
    rw [pythonRound_zero] at h2
    exact h2
  · have h2 := pythonRound_mono h1
    rw [pythonRound_intCast] at h2
    exact h2

/-- Witness for C1_amended at similarity = 0.85, max_score = 20. -/
theorem C1_amended_witness :
    (0:ℚ) ≤ 0.85 ∧ (0:ℤ) < 20 ∧
    0 ≤ calculate_final_score 0.85 20 ∧ calculate_final_score 0.85 20 ≤ 20 :=
  ⟨by norm_num, by norm_num,
   (C1_amended 0.85 20 (by norm_num) (by norm_num)).1,
   (C1_amended 0.85 20 (by norm_num) (by norm_num)).2⟩

/-! ### Claim C2: continuity of the calibration curve at the breakpoints -/

/-- Claim C2 is refuted at the 0.85 boundary: the branch below evaluated at
0.85 gives percentage 0.8995, not the 0.90 of the branch above, and with
max_score = 10000 the two branches calibrate to 8995 and 9000, which do not
agree within 1 unit. -/
theorem C2_counterexample :
    pct_good 0.85 ≠ pct_perfect 0.85 ∧
    pythonRound (min (pct_good 0.85) 1 * ((10000:ℤ):ℚ)) = 8995 ∧
    calculate_final_score 0.85 10000 = 9000 ∧
    ¬ (calculate_final_score 0.85 10000
        ≤ pythonRound (min (pct_good 0.85) 1 * ((10000:ℤ):ℚ)) + 1) := by
  refine ⟨by norm_num [pct_good, pct_perfect], ?_, ?_, ?_⟩
  · norm_num [pct_good, pythonRound]
  · norm_num [calculate_final_score, percentage, pct_perfect, pythonRound]
  · norm_num [calculate_final_score, percentage, pct_perfect, pct_good, pythonRound]

/-- Claim C2 (amended): the curve is exactly continuous only at the 0.40
boundary; at 0.55, 0.70 and 0.85 the branch below the boundary is exactly
0.0005 lower than the branch at the boundary, so the calibrated scores of
the two adjacent branches agree within 1 unit whenever
0 < max_score <= 2000 (which covers the intended score range), but not for
arbitrarily large max_score. -/
theorem C2_amended (m : ℤ) (hm : 0 < m) (hm2 : m ≤ 2000) :
    pct_poor 0.40 = pct_weak 0.40 ∧
    pct_perfect 0.85 - pct_good 0.85 = 0.0005 ∧
    pct_good 0.70 - pct_mid 0.70 = 0.0005 ∧
    pct_mid 0.55 - pct_weak 0.55 = 0.0005 ∧
    (pythonRound (min (pct_good 0.85) 1 * m) ≤ calculate_final_score 0.85 m ∧
      calculate_final_score 0.85 m ≤ pythonRound (min (pct_good 0.85) 1 * m) + 1) ∧
    (pythonRound (min (pct_mid 0.70) 1 * m) ≤ calculate_final_score 0.70 m ∧
      calculate_final_score 0.70 m ≤ pythonRound (min (pct_mid 0.70) 1 * m) + 1) ∧
    (pythonRound (min (pct_weak 0.55) 1 * m) ≤ calculate_final_score 0.55 m ∧
      calculate_final_score 0.55 m ≤ pythonRound (min (pct_weak 0.55) 1 * m) + 1) ∧
    calculate_final_score 0.40 m = pythonRound (min (pct_poor 0.40) 1 * m) := by
  have e85 : percentage 0.85 = pct_perfect 0.85 := by norm_num [percentage]
  have e70 : percentage 0.70 = pct_good 0.70 := by norm_num [percentage]
  have e55 : percentage 0.55 = pct_mid 0.55 := by norm_num [percentage]
  have e40 : percentage 0.40 = pct_poor 0.40 := by
    norm_num [percentage, pct_weak, pct_poor]
  refine ⟨by norm_num [pct_poor, pct_weak],
    by norm_num [pct_perfect, pct_good],
    by norm_num [pct_good, pct_mid],
    by norm_num [pct_mid, pct_weak], ?_, ?_, ?_, ?_⟩
  · unfold calculate_final_score
    rw [e85]
    rcases eq_or_lt_of_le hm2 with rfl | hlt
    · norm_num [pct_good, pct_perfect, pythonRound]
    · have hmQ : (m:ℚ) < 2000 := by exact_mod_cast hlt
      have hm0 : (0:ℚ) ≤ (m:ℚ) := by exact_mod_cast hm.le
      exact boundary_score_close m (by norm_num [pct_good, pct_perfect])
        (by norm_num [pct_perfect])
        (by norm_num [pct_good, pct_perfect]; linarith) hm0
  · unfold calculate_final_score
    rw [e70]
    rcases eq_or_lt_of_le hm2 with rfl | hlt
    · norm_num [pct_mid, pct_good, pythonRound]
    · have hmQ : (m:ℚ) < 2000 := by exact_mod_cast hlt
      have hm0 : (0:ℚ) ≤ (m:ℚ) := by exact_mod_cast hm.le
      exact boundary_score_close m (by norm_num [pct_mid, pct_good])
        (by norm_num [pct_good])
        (by norm_num [pct_mid, pct_good]; linarith) hm0
  · unfold calculate_final_score
    rw [e55]
    rcases eq_or_lt_of_le hm2 with rfl | hlt
    · norm_num [pct_weak, pct_mid, pythonRound]
    · have hmQ : (m:ℚ) < 2000 := by exact_mod_cast hlt
      have hm0 : (0:ℚ) ≤ (m:ℚ) := by exact_mod_cast hm.le
      exact boundary_score_close m (by norm_num [pct_weak, pct_mid])
        (by norm_num [pct_mid])
        (by norm_num [pct_weak, pct_mid]; linarith) hm0
  · unfold calculate_final_score
    rw [e40]

/-- Witness for C2_amended at max_score = 100. -/
theorem C2_amended_witness :
    (0:ℤ) < 100 ∧ (100:ℤ) ≤ 2000 ∧
    (pythonRound (min (pct_good 0.85) 1 * ((100:ℤ):ℚ)) ≤ calculate_final_score 0.85 100 ∧
      calculate_final_score 0.85 100 ≤ pythonRound (min (pct_good 0.85) 1 * ((100:ℤ):ℚ)) + 1) :=
  ⟨by norm_num, by norm_num, (C2_amended 100 (by norm_num) (by norm_num)).2.2.2.2.1⟩

/-! ### Claim C4: monotonicity of calculate_final_score -/

/-- Claim C4: for fixed max_score > 0, calculate_final_score is
monotonically non-decreasing in the similarity argument. -/
theorem C4_monotone (s1 s2 : ℚ) (m : ℤ) (hm : 0 < m) (h : s1 < s2) :
    calculate_final_score s1 m ≤ calculate_final_score s2 m := by
  unfold calculate_final_score
  apply pythonRound_mono
  have hm0 : (0:ℚ) ≤ (m:ℚ) := by exact_mod_cast hm.le
  exact mul_le_mul_of_nonneg_right (min_le_min (percentage_mono h.le) le_rfl) hm0

/-- Witness for C4_monotone at similarities 0.3 < 0.9, max_score = 10. -/
theorem C4_monotone_witness :
    (0:ℤ) < 10 ∧ (0.3:ℚ) < 0.9 ∧
    calculate_final_score 0.3 10 ≤ calculate_final_score 0.9 10 :=
  ⟨by norm_num, by norm_num, C4_monotone 0.3 0.9 10 (by norm_num) (by norm_num)⟩

/-! ### Claim C9: round-half-to-even rounding rule -/

/-- Claim C9: when the clamped percentage times max_score lands exactly
halfway between two consecutive integers k and k+1, calculate_final_score
returns one of the two, and always the even one (Python round is
round-half-to-even). -/
theorem C9_round_half_even (s : ℚ) (m k : ℤ)
    (h : min (percentage s) 1 * m = (k : ℚ) + 1/2) :
    (calculate_final_score s m = k ∨ calculate_final_score s m = k + 1) ∧
    calculate_final_score s m % 2 = 0 := by
  unfold calculate_final_score
  rw [h, pythonRound_half_even]
  split_ifs with hk
  · exact ⟨Or.inl rfl, hk⟩
  · exact ⟨Or.inr rfl, by omega⟩

/-- Witness for C9_round_half_even: at similarity 0.55 the percentage is
exactly 0.5, so max_score 5 gives the product 2.5 (rounded to 2) and
max_score 15 gives 7.5 (rounded to 8). -/
theorem C9_witness :
    (min (percentage 0.55) 1 * ((5:ℤ):ℚ) = (2:ℚ) + 1/2 ∧
      ((calculate_final_score 0.55 5 = 2 ∨ calculate_final_score 0.55 5 = 2 + 1) ∧
        calculate_final_score 0.55 5 % 2 = 0)) ∧
    (min (percentage 0.55) 1 * ((15:ℤ):ℚ) = (7:ℚ) + 1/2 ∧
      ((calculate_final_score 0.55 15 = 7 ∨ calculate_final_score 0.55 15 = 7 + 1) ∧
        calculate_final_score 0.55 15 % 2 = 0)) :=
  ⟨⟨by norm_num [percentage, pct_mid],
    C9_round_half_even 0.55 5 2 (by norm_num [percentage, pct_mid])⟩,
   ⟨by norm_num [percentage, pct_mid],
    C9_round_half_even 0.55 15 7 (by norm_num [percentage, pct_mid])⟩⟩

/-! ### Claim C5: empty-input short-circuit -/

/-- Claim C5: an item whose key answer or student answer is empty after
stripping gets similarity 0.0 and final score 0, and the model is neither
loaded nor invoked for it (the globals are left untouched). -/
theorem C5_empty_short_circuit (env : Env) (st : ModelState) (a : Answer)
    (h : pyStrip (a.key_answer.getD "") = "" ∨ pyStrip (a.student_answer.getD "") = "") :
    (score_item env st a).item.similarity_score = 0 ∧
    (score_item env st a).item.final_score = 0 ∧
    (score_item env st a).acquired = false ∧
    (score_item env st a).invoked = false ∧
    (score_item env st a).state = st := by
  by_cases hs : pyStrip (a.student_answer.getD "") = ""
  · simp only [score_item]
    rw [if_pos hs]
    exact ⟨round4_zero, rfl, rfl, rfl, rfl⟩
  · have hk : pyStrip (a.key_answer.getD "") = "" := h.resolve_right hs
    simp only [score_item]
    rw [if_neg hs, calculate_similarity_empty env st (Or.inl hk)]
    exact ⟨round4_zero, calculate_final_score_zero_sim _, rfl, rfl, rfl⟩

/-- Witness for C5_empty_short_circuit on an answer whose key answer
strips to the empty string. -/
theorem C5_witness :
    (pyStrip (a_c5.key_answer.getD "") = "" ∨
      pyStrip (a_c5.student_answer.getD "") = "") ∧
    ((score_item env_ok st_cold a_c5).item.similarity_score = 0 ∧
      (score_item env_ok st_cold a_c5).item.final_score = 0 ∧
      (score_item env_ok st_cold a_c5).acquired = false ∧
      (score_item env_ok st_cold a_c5).invoked = false ∧
      (score_item env_ok st_cold a_c5).state = st_cold) :=
  ⟨Or.inl (by decide), C5_empty_short_circuit env_ok st_cold a_c5 (Or.inl (by decide))⟩

/-! ### Claim C6: exceptions degrade to similarity 0.0 -/

/-- Claim C6: any failure inside the similarity computation (model loading
as well as encoding or cosine computation) is caught inside
calculate_similarity, which returns 0.0; the batch loop always produces one
result per answer, so a failing item never aborts the batch. -/
theorem C6_degrade_to_zero (env : Env) (st : ModelState) (k s : String)
    (h : (st.model = none ∧ env.primary_ok = false ∧ env.fallback_ok = false) ∨
         (∀ m, env.sim m k s = none)) :
    (calculate_similarity env st k s).similarity = 0 ∧
    (∀ answers, (score_exam_loop env st answers).results.length = answers.length) := by
  refine ⟨?_, fun answers => score_exam_loop_length env st answers⟩
  unfold calculate_similarity
  by_cases he : k = "" ∨ s = ""
  · rw [if_pos he]
  · rw [if_neg he]
    cases hst : st.model with
    | some m =>
      have hsim : ∀ m, env.sim m k s = none := by
        rcases h with ⟨hm, _, _⟩ | hsim
        · rw [hst] at hm; cases hm
        · exact hsim
      dsimp only
      rw [hsim m]
    | none =>
      dsimp only
      rcases h with ⟨hm, hp, hf⟩ | hsim
      · simp only [load_model_fail hp hf hm]
      · rcases hload : load_model_from_firebase_storage env st with ⟨res, st2, acq⟩
        rcases res with e | m
        · simp only [hload]
        · simp only [hload, hsim m]

/-- Witness for C6_degrade_to_zero in an environment whose similarity
oracle always raises. -/
theorem C6_witness :
    ((st_cold.model = none ∧ env_bad.primary_ok = false ∧ env_bad.fallback_ok = false) ∨
      (∀ m, env_bad.sim m "alpha" "beta" = none)) ∧
    ((calculate_similarity env_bad st_cold "alpha" "beta").similarity = 0 ∧
      (∀ answers,
        (score_exam_loop env_bad st_cold answers).results.length = answers.length)) :=
  ⟨Or.inr (fun _ => rfl),
   C6_degrade_to_zero env_bad st_cold "alpha" "beta" (Or.inr (fun _ => rfl))⟩

/-! ### Claim C7: batch shape, order and totals -/

/-- Claim C7: the batch loop returns one result per input answer, in input
order (question ids line up index by index), and the two totals are the
sums of the per-item final scores and of the per-item max scores. -/
theorem C7_batch_shape (env : Env) (st : ModelState) (answers : List Answer) :
    (score_exam_loop env st answers).results.length = answers.length ∧
    (∀ i, ((score_exam_loop env st answers).results.get? i).map ResultItem.question_id
        = (answers.get? i).map (fun a => a.question_id.getD "")) ∧
    (score_exam_loop env st answers).total_score
        = ((score_exam_loop env st answers).results.map ResultItem.final_score).sum ∧
    (score_exam_loop env st answers).total_max_score
        = ((score_exam_loop env st answers).results.map ResultItem.max_score).sum ∧
    (score_exam_loop env st answers).total_max_score
        = (answers.map (fun a => a.max_score.getD 100)).sum := by
  induction answers generalizing st with
  | nil => exact ⟨rfl, fun i => rfl, rfl, rfl, rfl⟩
  | cons a rest ih =>
    obtain ⟨ih1, ih2, ih3, ih4, ih5⟩ := ih (score_item env st a).state
    refine ⟨?_, ?_, ?_, ?_, ?_⟩
    · simpa [score_exam_loop] using ih1
    · intro i
      cases i with
      | zero => simp [score_exam_loop, score_item_question_id]
      | succ n => simpa [score_exam_loop] using ih2 n
    · simp [score_exam_loop, ih3]
    · simp [score_exam_loop, ih4]
    · simp [score_exam_loop, ih5, score_item_max_score]

/-! ### Claim C8: the loaded model is cached forever -/

/-- Claim C8: after a successful load (primary or fallback), every further
call of the loader, in any environment, returns the very same cached model
immediately with no new storage acquisition, and the loaded globals are
never changed again (no downgrade of primary to fallback or vice versa). -/
theorem C8_cached_forever (env env2 : Env) (st : ModelState) (m : ModelKind)
    (h : (load_model_from_firebase_storage env st).result = .ok m) :
    load_model_from_firebase_storage env2 (load_model_from_firebase_storage env st).state
      = { result := .ok m, state := (load_model_from_firebase_storage env st).state,
          acquired := false } ∧
    (load_model_from_firebase_storage env st).state.model_loaded = true ∧
    (load_model_from_firebase_storage env st).state.model = some m := by
  obtain ⟨ml, mo⟩ := st
  cases ml <;> cases mo <;>
    (unfold load_model_from_firebase_storage at h ⊢
     dsimp only at h ⊢
     try split_ifs at h ⊢
     all_goals simp_all)

/-- Witness for C8_cached_forever: a cold start in a healthy environment
loads the primary model. -/
theorem C8_witness :
    (load_model_from_firebase_storage env_ok st_cold).result = .ok .primary ∧
    (load_model_from_firebase_storage env_ok
        (load_model_from_firebase_storage env_ok st_cold).state
      = { result := .ok .primary,
          state := (load_model_from_firebase_storage env_ok st_cold).state,
          acquired := false } ∧
      (load_model_from_firebase_storage env_ok st_cold).state.model_loaded = true ∧
      (load_model_from_firebase_storage env_ok st_cold).state.model = some .primary) :=
  ⟨rfl, C8_cached_forever env_ok env_ok st_cold .primary rfl⟩

/-! ### Claim C3: behaviour when primary and fallback both fail -/

/-- Claim C3 is refuted: with both the primary download and the fallback
construction failing and a request with non-empty answers, the loader does
raise, yet the request is still answered with HTTP 200 and a success body
of zero scores, not a 500-class error. -/
theorem C3_counterexample :
    load_model_from_firebase_storage env_bad st_cold
      = { result := .error (), state := st_cold, acquired := true } ∧
    (score_exam env_bad st_cold { method := "POST", answers := some [a_bad] }).1
      = { status := 200
          body := .batch [{ question_id := "q1", similarity_score := 0
                            final_score := 0, max_score := 10 }] 0 10 } := by
  refine ⟨rfl, ?_⟩
  have hcs : calculate_similarity env_bad st_cold "k" "s"
      = { similarity := 0, state := st_cold, acquired := true, invoked := false } := by
    unfold calculate_similarity
    rw [if_neg (by decide)]
    rfl
  have hsi : score_item env_bad st_cold a_bad
      = { item := { question_id := "q1", similarity_score := 0
                    final_score := 0, max_score := 10 }
          state := st_cold, acquired := true, invoked := false } := by
    simp only [score_item, a_bad]
    rw [if_neg (by decide)]
    have hks : pyStrip "k" = "k" := by decide
    have hss : pyStrip "s" = "s" := by decide
    simp only [Option.getD_some, hks, hss, hcs]
    simp [round4_zero, calculate_final_score_zero_sim]
  simp [score_exam, score_exam_loop, hsi]

/-- Claim C3 (amended): when primary and fallback acquisition both fail,
load_model_from_firebase_storage raises to its caller
calculate_similarity, but that caller catches the exception and degrades
to similarity 0.0, so the triggering request is still answered with an
HTTP 200 success response, not a 500-class error. -/
theorem C3_amended (env : Env) (st : ModelState) (k s : String)
    (hp : env.primary_ok = false) (hf : env.fallback_ok = false) (hm : st.model = none)
    (hk : ¬ k = "") (hs : ¬ s = "") :
    (load_model_from_firebase_storage env st).result = .error () ∧
    ((calculate_similarity env st k s).similarity = 0 ∧
      ∀ answers,
        (score_exam env st { method := "POST", answers := some answers }).1.status = 200) := by
  have hload := load_model_fail hp hf hm
  refine ⟨by rw [hload], ?_, fun answers => rfl⟩
  unfold calculate_similarity
  rw [if_neg (by push_neg; exact ⟨hk, hs⟩), hm]
  dsimp only
  simp only [hload]

/-- Witness for C3_amended in the all-failing environment at cold start. -/
theorem C3_amended_witness :
    (env_bad.primary_ok = false ∧ env_bad.fallback_ok = false ∧ st_cold.model = none ∧
      ¬ "k" = "" ∧ ¬ "s" = "") ∧
    ((load_model_from_firebase_storage env_bad st_cold).result = .error () ∧
      ((calculate_similarity env_bad st_cold "k" "s").similarity = 0 ∧
        ∀ answers,
          (score_exam env_bad st_cold
            { method := "POST", answers := some answers }).1.status = 200)) :=
  ⟨⟨rfl, rfl, rfl, by decide, by decide⟩,
   C3_amended env_bad st_cold "k" "s" rfl rfl rfl (by decide) (by decide)⟩

/-! ### Claim C10: max_score is never validated -/

/-- Claim C10: max_score is taken from the request with default 100 and
never validated: any answer, including one with zero or negative
max_score, is scored and included in an HTTP 200 success response, and a
zero max_score forces final score 0 for every similarity. -/
theorem C10_no_max_score_validation (env : Env) (st : ModelState) (a : Answer) :
    (∀ s : ℚ, calculate_final_score s 0 = 0) ∧
    (score_exam env st { method := "POST", answers := some [a] }).1.status = 200 ∧
    (score_exam env st { method := "POST", answers := some [a] }).1.body
      = .batch [(score_item env st a).item]
          (score_item env st a).item.final_score (score_item env st a).item.max_score ∧
    (score_item env st a).item.max_score = a.max_score.getD 100 := by
  refine ⟨?_, rfl, ?_, score_item_max_score env st a⟩
  · intro s
    unfold calculate_final_score
    simp [pythonRound_zero]
  · simp [score_exam, score_exam_loop]

end FinSmart
